import Mathlib

/-!
# Verification of `pdpbox/info_plots.py`

A shallow embedding of the two entry points of the module,
`target_plot` and `actual_plot`, together with proofs of the behavioural
claims about validation order, type inference, aggregation invariants and
return values.

Modelling conventions:
* A pandas `DataFrame` is a list of column names together with a list of
  rows; each row is an association list from column name to an integer
  cell value (the module only ever compares cell values with `0`/`1` and
  averages them, so integer cells suffice; means are rationals).
* `ValueError`s are classified by the message classes used in the code
  (`InvalidFeature`, `InvalidRange`, `InvalidTarget`,
  `InvalidClassSelector`); Python errors outside that taxonomy
  (`KeyError`, `AttributeError`) get their own constructors.
* The external collaborators from `info_plot_utils` (`_prepare_data_x`,
  `_target_plot`, `_actual_plot`, `_actual_plot_title`) are not part of
  the source under verification; they are abstracted (the grid builder as
  a function parameter producing per-row bin assignments, the renderers
  as events in a render log / a returned axes handle, following their
  contracts in the specification).
* Mutation is made explicit: `target_plotRun` returns the caller's frame
  alongside the result, and `actual_plotRun` returns the list of render
  events that happened before the call finished or raised.
-/

namespace PDPbox

/-- A row of a pandas DataFrame: association list from column name to cell. -/
abbrev Row := List (String × Int)

/-- A pandas DataFrame: ordered column names and rows of cells. -/
structure DataFrame where
  cols : List String
  rows : List Row
deriving DecidableEq

/-- Reading a cell `r[name]` (only used for columns known to exist). -/
def rowGet (r : Row) (name : String) : Int := (r.lookup name).getD 0

/-- The column `df[name]` as a list of values, one per row. -/
def colVals (df : DataFrame) (name : String) : List Int :=
  df.rows.map fun r => rowGet r name

/-- `df[useful_features].copy()`: a fresh frame holding only the named columns. -/
def DataFrame.select (df : DataFrame) (names : List String) : DataFrame :=
  { cols := names
    rows := df.rows.map fun r => names.map fun n => (n, rowGet r n) }

/-- `sorted(list(np.unique(col)))`: the distinct values of a column in
ascending order. -/
def uniqueSorted (l : List Int) : List Int :=
  l.dedup.insertionSort (· ≤ ·)

/-- A feature or target spec: Python dispatches on `type(x) == str` /
`type(x) == list`; any other runtime type falls into the final `else`. -/
inductive ColSpec where
  | str (name : String)
  | list (names : List String)
  | other
deriving DecidableEq

/-- Error classes raised by the module.  The first four are the
specification's taxonomy (`ValueError` message classes); `keyError` and
`attributeError` model Python failures outside that taxonomy. -/
inductive PlotErr where
  | invalidFeature
  | invalidRange
  | invalidTarget
  | invalidClassSelector
  | keyError
  | attributeError
deriving DecidableEq

/-- Modelled from the spec: the error taxonomy of §7 of the specification
(`InvalidFeature`, `InvalidTarget`, `InvalidRange`, `InvalidClassSelector`).
`keyError`/`attributeError` are Python-level failures outside it. -/
def specTaxonomy : PlotErr → Bool
  | .invalidFeature => true
  | .invalidRange => true
  | .invalidTarget => true
  | .invalidClassSelector => true
  | .keyError => false
  | .attributeError => false

/-- A matplotlib drawing-surface handle. -/
inductive Handle where
  | axes
deriving DecidableEq

/-- `info_plots.py` lines 125-139: feature validation and type inference.
A string feature must name an existing column; it is `binary` iff the
sorted distinct values are exactly `[0, 1]`, else `numeric`.  A list
feature needs length ≥ 2 and `set(feature) < set(df.columns.values)`
(a *strict* subset, Python's `<` on sets); any other type raises. -/
def checkFeature (df : DataFrame) (feature : ColSpec) : Except PlotErr String :=
  match feature with
  | .str name =>
    if name ∉ df.cols then .error .invalidFeature
    else if uniqueSorted (colVals df name) = [0, 1] then .ok "binary"
    else .ok "numeric"
  | .list names =>
    if names.length < 2 then .error .invalidFeature
    else if ¬ (names.toFinset ⊂ df.cols.toFinset) then .error .invalidFeature
    else .ok "onehot"
  | .other => .error .invalidFeature

/-- `np.max` over a (non-empty, after the length check) tuple. -/
def npMax (l : List Int) : Int := l.foldl max (l.headD 0)

/-- `np.min` over a (non-empty, after the length check) tuple. -/
def npMin (l : List Int) : Int := l.foldl min (l.headD 0)

/-- `info_plots.py` lines 142-146: percentile-range validation.  When
provided it must have exactly two elements, all within `[0, 100]`. -/
def checkPercentileRange (pr : Option (List Int)) : Except PlotErr Unit :=
  match pr with
  | none => .ok ()
  | some l =>
    if l.length ≠ 2 then .error .invalidRange
    else if npMax l > 100 ∨ npMin l < 0 then .error .invalidRange
    else .ok ()

/-- `info_plots.py` lines 149-166: target validation and type inference.
A string target must exist; `binary` iff distinct values are exactly
`[0, 1]`, else `regression`.  A list target needs length ≥ 2, a strict
subset of the columns, and every listed column one-hot (`[0, 1]`). -/
def checkTarget (df : DataFrame) (target : ColSpec) : Except PlotErr String :=
  match target with
  | .str name =>
    if name ∉ df.cols then .error .invalidTarget
    else if uniqueSorted (colVals df name) = [0, 1] then .ok "binary"
    else .ok "regression"
  | .list names =>
    if names.length < 2 then .error .invalidTarget
    else if ¬ (names.toFinset ⊂ df.cols.toFinset) then .error .invalidTarget
    else if names.all (fun n => decide (uniqueSorted (colVals df n) = [0, 1])) then
      .ok "multi-class"
    else .error .invalidTarget
  | .other => .error .invalidTarget

/-- `info_plots.py` lines 169-177: the `useful_features` column subset. -/
def specCols : ColSpec → List String
  | .str name => [name]
  | .list names => names
  | .other => []

/-- Output of the Grid Builder collaborator `_prepare_data_x` (external,
`info_plot_utils`): per-row bin assignments (`data_x['x']`) plus the
display labels and optional percentile labels, per its contract in §4.2
of the specification. -/
structure GridOut where
  xs : List Nat
  displayColumns : List String
  percentileColumns : List String

/-- The distinct bin ids present in the data, ascending: grouping by `x`
with `sort_values('x', ascending=True)` visits exactly these keys. -/
def sortedBins (xs : List Nat) : List Nat :=
  xs.dedup.insertionSort (· ≤ ·)

/-- `data_x.groupby('x').agg({'fake_count': 'count'}).sort_values('x')`:
per-bin row count (the `fake_count` marker is `1` on every row, so its
count is the group size), ordered by bin id ascending. -/
def groupCount (xs : List Nat) : List (Nat × Nat) :=
  (sortedBins xs).map fun b => (b, xs.count b)

/-- `data_x.groupby('x').agg({target: 'mean'}).sort_values('x')`:
per-bin mean (sum over size) of the target column, ordered by bin id
ascending.  Groups visited by the group-by are nonempty, so the
denominator is never zero. -/
def groupMean (xs : List Nat) (vals : List Int) : List (Nat × ℚ) :=
  (sortedBins xs).map fun b =>
    let g := ((xs.zip vals).filter fun p => p.1 == b).map Prod.snd
    (b, mkRat g.sum g.length)

/-- Modelled from the spec: the Renderer collaborator `_target_plot`
(external, `info_plot_utils`, not under `src/`); per §6 it draws the bars
and line(s) and returns the drawing-surface handle (matplotlib axes). -/
def rendererTargetPlot (_barData : List (Nat × Nat))
    (_targetLines : List (List (Nat × ℚ))) : Handle :=
  .axes

/-- The result of a successful `target_plot` call: the binned data
(`data_x`, with its `x` column recorded in `xs`), grid labels, bar data,
target lines and the returned axes. -/
structure TPResult where
  xs : List Nat
  displayColumns : List String
  percentileColumns : List String
  barData : List (Nat × Nat)
  targetLines : List (List (Nat × ℚ))
  axes : Option Handle
deriving DecidableEq

/-- `info_plots.py` lines 73-203, `target_plot`.  Returns the outcome
together with the caller's frame after the call (mutation is explicit:
the count-marker column is added to the copy `data_x`, never to `df`).
The grid configuration (`num_grid_points`, `grid_type`, `grid_range`,
`cust_grid_points`, `show_percentile`) is absorbed into the abstract
grid-builder parameter `prep`, and the figure/style parameters into the
renderer model. -/
def target_plotRun (df : DataFrame) (feature : ColSpec) (target : ColSpec)
    (percentile_range : Option (List Int)) (prep : DataFrame → GridOut) :
    Except PlotErr TPResult × DataFrame :=
  match checkFeature df feature with
  | .error e => (.error e, df)
  | .ok _feature_type =>
    match checkPercentileRange percentile_range with
    | .error e => (.error e, df)
    | .ok _ =>
      match checkTarget df target with
      | .error e => (.error e, df)
      | .ok target_type =>
        let useful_features := specCols feature ++ specCols target
        let data := df.select useful_features
        let g := prep data
        let bar_data := groupCount g.xs
        let target_lines :=
          if target_type = "binary" ∨ target_type = "regression" then
            match target with
            | .str n => [groupMean g.xs (colVals data n)]
            | _ => []
          else
            match target with
            | .list ns => ns.map fun n => groupMean g.xs (colVals data n)
            | _ => []
        (.ok { xs := g.xs
               displayColumns := g.displayColumns
               percentileColumns := g.percentileColumns
               barData := bar_data
               targetLines := target_lines
               axes := some (rendererTargetPlot bar_data target_lines) }, df)

/-- The value returned (or error raised) by `target_plot`. -/
def target_plot (df : DataFrame) (feature : ColSpec) (target : ColSpec)
    (percentile_range : Option (List Int)) (prep : DataFrame → GridOut) :
    Except PlotErr TPResult :=
  (target_plotRun df feature target percentile_range prep).1

/-- `actual_plot`'s first positional argument: either a single
`pdp_isolate_obj`, or (multi-class) a dict with keys
`class_0 … class_{n-1}`. -/
inductive IsolateOut where
  | single
  | dict (n : Nat)
deriving DecidableEq

/-- Dict lookup `pdp_isolate_out['class_%d' % which_class]`: the key
exists iff `0 ≤ which_class < n`. -/
def classLookup (n : Nat) (which_class : Int) : Option Unit :=
  if 0 ≤ which_class ∧ which_class < (n : Int) then some () else none

/-- `info_plots.py` lines 10-70, `actual_plot`.  The function body has no
`return` statement, so a successful call returns Python's `None`; the
second component is the render log (figure/title/panel events emitted by
the external renderer calls), in order, so an error value shows exactly
how much rendering preceded it.  `which_class` is modelled as an integer
(the claims under study always pass one when `multi_flag` is true). -/
def actual_plotRun (out : IsolateOut) (multi_flag : Bool) (which_class : Int)
    (ncols : Option Nat) : Except PlotErr (Option Handle) × List String :=
  if multi_flag then
    -- line 32: `which_class >= len(pdp_isolate_out.keys())`
    match out with
    | .single => (.error .attributeError, [])
    | .dict n =>
      if (n : Int) ≤ which_class then (.error .invalidClassSelector, [])
      else
        -- lines 41-42 create the title figure, then lines 61-70 select
        -- the class entry and render one panel
        match classLookup n which_class with
        | none => (.error .keyError, ["figure"])
        | some _ => (.ok none, ["figure", "title", "panel"])
  else
    match out with
    | .dict n =>
      let nc := ncols.getD 2
      (.ok none, ["figure", "title"] ++
        ((List.range n).map fun i => "panel_class_" ++ toString i) ++
        ["rows_" ++ toString ((n + nc - 1) / nc)])
    | .single => (.ok none, ["figure", "title", "panel"])

/-! ## Concrete instances used in closed-form evaluations -/

/-- A frame with a binary feature `f` and a binary target `y`. -/
def dfBin : DataFrame :=
  { cols := ["f", "y"]
    rows := [[("f", 0), ("y", 0)], [("f", 1), ("y", 1)], [("f", 0), ("y", 1)]] }

/-- A grid builder assigning the three rows of `dfBin` to bins 0, 1, 0. -/
def prepBin : DataFrame → GridOut := fun _ => ⟨[0, 1, 0], ["l0", "l1"], []⟩

/-- The result `target_plot` produces on `dfBin` with `prepBin`. -/
def resBin : TPResult :=
  { xs := [0, 1, 0], displayColumns := ["l0", "l1"], percentileColumns := []
    barData := [(0, 2), (1, 1)]
    targetLines := [[(0, mkRat 1 2), (1, mkRat 1 1)]]
    axes := some .axes }

/-- A frame whose column `f` is constantly `0` (distinct value set `{0}`). -/
def dfZeros : DataFrame :=
  { cols := ["f", "y"], rows := [[("f", 0), ("y", 0)], [("f", 0), ("y", 1)]] }

/-- A frame with exactly two one-hot columns and nothing else. -/
def dfPair : DataFrame :=
  { cols := ["t1", "t2"], rows := [[("t1", 0), ("t2", 1)], [("t1", 1), ("t2", 0)]] }

/-- A frame with a one-hot feature pair and a one-hot target pair, all four
columns binary, so any two-column list is a strict subset of the columns. -/
def dfFour : DataFrame :=
  { cols := ["a", "b", "t1", "t2"]
    rows := [[("a", 0), ("b", 1), ("t1", 0), ("t2", 1)],
             [("a", 1), ("b", 0), ("t1", 1), ("t2", 0)]] }

/-- A trivial grid builder (no rows binned). -/
def prep0 : DataFrame → GridOut := fun _ => ⟨[], [], []⟩

/-! ## Helper lemmas about the aggregation model -/

/-- Sorting the distinct bin ids is a permutation of deduplication. -/
lemma sortedBins_perm_dedup (xs : List Nat) : List.Perm (sortedBins xs) xs.dedup :=
  List.perm_insertionSort _ _

/-- A bin id occurs in the group-by keys iff some row is assigned to it. -/
lemma mem_sortedBins {b : Nat} {xs : List Nat} : b ∈ sortedBins xs ↔ b ∈ xs := by
  rw [(sortedBins_perm_dedup xs).mem_iff, List.mem_dedup]

/-- The group-by keys are strictly increasing. -/
lemma sortedBins_sorted_lt (xs : List Nat) : List.Sorted (· < ·) (sortedBins xs) := by
  refine List.Sorted.lt_of_le (List.sorted_insertionSort _ _) ?_
  exact (sortedBins_perm_dedup xs).nodup_iff.mpr (List.nodup_dedup xs)

/-- The bin-id column of the bar data is exactly the sorted group keys. -/
lemma groupCount_fst (xs : List Nat) :
    (groupCount xs).map Prod.fst = sortedBins xs := by
  simp [groupCount, List.map_map, Function.comp_def]

/-- The bin-id column of a target line is exactly the sorted group keys. -/
lemma groupMean_fst (xs : List Nat) (vals : List Int) :
    (groupMean xs vals).map Prod.fst = sortedBins xs := by
  simp [groupMean, List.map_map, Function.comp_def]

/-- The bar counts sum to the number of binned rows. -/
lemma sum_groupCount (xs : List Nat) :
    ((groupCount xs).map Prod.snd).sum = xs.length := by
  have h1 : (groupCount xs).map Prod.snd = (sortedBins xs).map fun b => xs.count b := by
    simp [groupCount, List.map_map, Function.comp_def]
  rw [h1, ((sortedBins_perm_dedup xs).map (fun b => xs.count b)).sum_eq]
  exact List.sum_map_count_dedup_eq_length xs

/-- Deduplication does not change the set of distinct values. -/
lemma toFinset_dedup' (l : List Int) : l.dedup.toFinset = l.toFinset :=
  List.toFinset.ext fun _ => List.mem_dedup

/-- The code's `sorted(list(np.unique(col))) == [0, 1]` test holds iff the
set of distinct values of the column is exactly `{0, 1}`. -/
lemma uniqueSorted_eq_pair_iff (l : List Int) :
    uniqueSorted l = [0, 1] ↔ l.toFinset = {0, 1} := by
  constructor
  · intro h
    have hperm : List.Perm (uniqueSorted l) l.dedup := List.perm_insertionSort _ _
    have h2 : (uniqueSorted l).toFinset = l.toFinset := by
      rw [List.toFinset_eq_of_perm _ _ hperm, toFinset_dedup']
    rw [h] at h2
    rw [← h2]; decide
  · intro h
    have hperm : List.Perm l.dedup [0, 1] := by
      refine List.perm_of_nodup_nodup_toFinset_eq (List.nodup_dedup l) (by decide) ?_
      rw [toFinset_dedup', h]; decide
    exact List.eq_of_perm_of_sorted ((List.perm_insertionSort _ _).trans hperm)
      (List.sorted_insertionSort _ _) (by decide)

/-- Evaluation of the list-feature branch under a valid length and a
strict column subset: validation passes and the type is `onehot`. -/
lemma checkFeature_list_eval (df : DataFrame) (names : List String)
    (h2 : 2 ≤ names.length) (hsub : names.toFinset ⊂ df.cols.toFinset) :
    checkFeature df (.list names) = .ok "onehot" := by
  simp only [checkFeature]
  rw [if_neg (by omega), if_neg (not_not_intro hsub)]

/-- Evaluation of the list-target branch under a valid length and a strict
column subset: the outcome is decided exactly by the per-column one-hot
condition. -/
lemma checkTarget_list_eval (df : DataFrame) (names : List String)
    (h2 : 2 ≤ names.length) (hsub : names.toFinset ⊂ df.cols.toFinset) :
    checkTarget df (.list names) =
      if ∀ n ∈ names, (colVals df n).toFinset = {0, 1} then .ok "multi-class"
      else .error .invalidTarget := by
  simp only [checkTarget]
  rw [if_neg (by omega), if_neg (not_not_intro hsub)]
  by_cases hall : ∀ n ∈ names, (colVals df n).toFinset = {0, 1}
  · rw [if_pos hall, if_pos]
    rw [List.all_eq_true]
    intro n hn
    simpa [uniqueSorted_eq_pair_iff] using hall n hn
  · rw [if_neg hall, if_neg]
    simp only [List.all_eq_true, decide_eq_true_eq]
    intro hcontra
    exact hall fun n hn => (uniqueSorted_eq_pair_iff _).mp (hcontra n hn)

/-- Inversion of a successful `target_plot` call: target validation
succeeded, the bar data is the group-by count of the binned rows, the
returned axes is the renderer's handle, and every target line is a
group-by mean over the same bin assignments. -/
lemma target_plot_ok_inv (df : DataFrame) (feature target : ColSpec)
    (pr : Option (List Int)) (prep : DataFrame → GridOut) (res : TPResult)
    (h : target_plot df feature target pr prep = .ok res) :
    ∃ target_type,
      checkTarget df target = .ok target_type ∧
      res.barData = groupCount res.xs ∧
      res.axes = some (rendererTargetPlot res.barData res.targetLines) ∧
      (∀ line ∈ res.targetLines, ∃ vals, line = groupMean res.xs vals) := by
  unfold target_plot target_plotRun at h
  split at h
  · simp at h
  · split at h
    · simp at h
    · split at h
      · simp at h
      · rename_i target_type heq3
        simp only [Except.ok.injEq] at h
        subst h
        refine ⟨target_type, heq3, rfl, rfl, ?_⟩
        intro line hline
        dsimp only at hline ⊢
        rcases target with n | ns | _ <;> split at hline <;> simp at hline
        · exact ⟨_, hline⟩
        · obtain ⟨n, _, hn⟩ := hline
          exact ⟨_, hn.symm⟩

end PDPbox

deriving instance DecidableEq for Except

namespace PDPbox

/-! ## The claims -/

/-- C1 (amended): in `target_plot`, a string feature naming an existing
column is inferred `binary` iff its set of distinct values is *exactly*
`{0, 1}`; in every other case — including the nonempty proper subsets
`{0}` and `{1}` — it is inferred `numeric`. -/
theorem C1_feature_type_amended (df : DataFrame) (name : String)
    (h : name ∈ df.cols) :
    checkFeature df (.str name) =
      .ok (if (colVals df name).toFinset = {0, 1} then "binary" else "numeric") := by
  simp only [checkFeature]
  rw [if_neg (not_not_intro h)]
  by_cases hb : (colVals df name).toFinset = {0, 1}
  · rw [if_pos ((uniqueSorted_eq_pair_iff _).mpr hb), if_pos hb]
  · rw [if_neg (fun hc => hb ((uniqueSorted_eq_pair_iff _).mp hc)), if_neg hb]

/-- C1 counterexample: the column `f` of `dfZeros` has distinct value set
`{0}`, a non-empty subset of `{0, 1}`, yet the inferred feature type is
`numeric`, not `binary` as the claim demands. -/
theorem C1_feature_type_cex :
    (colVals dfZeros "f").toFinset ≠ ∅ ∧
    (colVals dfZeros "f").toFinset ⊆ {0, 1} ∧
    checkFeature dfZeros (.str "f") = .ok "numeric" := by decide

/-- C1 witness: the amended theorem applied to the genuinely binary
column `f` of `dfBin`. -/
theorem C1_feature_type_witness :
    "f" ∈ dfBin.cols ∧
    checkFeature dfBin (.str "f") =
      .ok (if (colVals dfBin "f").toFinset = {0, 1} then "binary" else "numeric") :=
  ⟨by decide, C1_feature_type_amended dfBin "f" (by decide)⟩

/-- C2 (amended): every successful `target_plot` call returns the
renderer's axes handle (not `None`), while `actual_plot` — whose body has
no `return` statement — returns `None` on every successful call. -/
theorem C2_return_amended (df : DataFrame) (feature target : ColSpec)
    (pr : Option (List Int)) (prep : DataFrame → GridOut) (res : TPResult)
    (out : IsolateOut) (mf : Bool) (wc : Int) (nc : Option Nat)
    (r : Option Handle) (log : List String)
    (h1 : target_plot df feature target pr prep = .ok res)
    (h2 : actual_plotRun out mf wc nc = (.ok r, log)) :
    res.axes.isSome = true ∧ r = none := by
  constructor
  · obtain ⟨-, -, -, haxes, -⟩ := target_plot_ok_inv df feature target pr prep res h1
    rw [haxes]
    rfl
  · rcases out with _ | n <;> rcases mf
    · simp [actual_plotRun] at h2
      exact h2.1.symm
    · simp [actual_plotRun] at h2
    · simp [actual_plotRun] at h2
      exact h2.1.symm
    · simp only [actual_plotRun, eq_self_iff_true, if_true] at h2
      split at h2
      · simp at h2
      · split at h2
        · simp at h2
        · simp at h2
          exact h2.1.symm

/-- C2 counterexample: a successful `actual_plot` call (single result, no
multi-class flag) whose returned value is `None`, not a drawing handle. -/
theorem C2_return_cex :
    actual_plotRun .single false 0 none = (.ok none, ["figure", "title", "panel"]) ∧
    (none : Option Handle).isSome = false := by decide

/-- C2 witness: the amended theorem applied to a concrete successful
`target_plot` call and a concrete successful `actual_plot` call. -/
theorem C2_return_witness :
    target_plot dfBin (.str "f") (.str "y") none prepBin = .ok resBin ∧
    actual_plotRun .single false 0 none = (.ok none, ["figure", "title", "panel"]) ∧
    (resBin.axes.isSome = true ∧ (none : Option Handle) = none) :=
  ⟨by decide, by decide,
    C2_return_amended dfBin (.str "f") (.str "y") none prepBin resBin .single false 0
      none none ["figure", "title", "panel"] (by decide) (by decide)⟩

/-- C3 (amended): `target_plot` validates in the order feature →
percentile_range → target, so whenever the feature is valid and the
percentile range is invalid, the call fails with `InvalidRange` — even if
the target is also invalid (the claim predicted `InvalidTarget`). -/
theorem C3_validation_order_amended (df : DataFrame) (feature target : ColSpec)
    (pr : Option (List Int)) (prep : DataFrame → GridOut) (ft : String)
    (hf : checkFeature df feature = .ok ft)
    (hr : checkPercentileRange pr = .error .invalidRange) :
    target_plot df feature target pr prep = .error .invalidRange := by
  unfold target_plot target_plotRun
  rw [hf, hr]

/-- C3 counterexample: with a valid feature, an invalid target and an
invalid percentile range, the raised error is `InvalidRange`, not the
`InvalidTarget` the claim predicts. -/
theorem C3_validation_order_cex :
    checkFeature dfBin (.str "f") = .ok "binary" ∧
    checkTarget dfBin (.str "nope") = .error .invalidTarget ∧
    checkPercentileRange (some [10, 105]) = .error .invalidRange ∧
    target_plot dfBin (.str "f") (.str "nope") (some [10, 105]) prepBin =
      .error .invalidRange := by decide

/-- C3 witness: the amended theorem applied to the concrete inputs of the
counterexample. -/
theorem C3_validation_order_witness :
    checkFeature dfBin (.str "f") = .ok "binary" ∧
    checkPercentileRange (some [10, 105]) = .error .invalidRange ∧
    target_plot dfBin (.str "f") (.str "nope") (some [10, 105]) prepBin =
      .error .invalidRange :=
  ⟨by decide, by decide,
    C3_validation_order_amended dfBin (.str "f") (.str "nope") (some [10, 105])
      prepBin "binary" (by decide) (by decide)⟩

/-- C4 (amended): a list feature of length ≥ 2 whose name set is a
*strict* subset of the dataset's columns passes feature validation (type
`onehot`); a list target of length ≥ 2 whose name set is a strict subset
and whose columns are all one-hot passes target validation (type
`multi-class`).  When the name set equals the full column set the code's
`set(...) < set(...)` test fails and `InvalidFeature`/`InvalidTarget` is
raised. -/
theorem C4_list_subset_amended (df : DataFrame) (fnames tnames : List String)
    (hf2 : 2 ≤ fnames.length) (hfsub : fnames.toFinset ⊂ df.cols.toFinset)
    (ht2 : 2 ≤ tnames.length) (htsub : tnames.toFinset ⊂ df.cols.toFinset)
    (htbin : ∀ n ∈ tnames, (colVals df n).toFinset = {0, 1}) :
    checkFeature df (.list fnames) = .ok "onehot" ∧
    checkTarget df (.list tnames) = .ok "multi-class" := by
  refine ⟨checkFeature_list_eval df fnames hf2 hfsub, ?_⟩
  rw [checkTarget_list_eval df tnames ht2 htsub, if_pos htbin]

/-- C4 counterexample: the list feature `["t1", "t2"]` has length 2 and
all its elements are columns of `dfPair` (it equals the full column set),
yet `target_plot` raises `InvalidFeature`, contradicting the claim. -/
theorem C4_list_subset_cex :
    (["t1", "t2"] : List String).toFinset ⊆ dfPair.cols.toFinset ∧
    2 ≤ (["t1", "t2"] : List String).length ∧
    target_plot dfPair (.list ["t1", "t2"]) (.str "t2") none prep0 =
      .error .invalidFeature := by decide

/-- C4 witness: the amended theorem applied to `dfFour`, whose feature
pair and target pair are strict subsets of the columns. -/
theorem C4_list_subset_witness :
    2 ≤ (["a", "b"] : List String).length ∧
    (["a", "b"] : List String).toFinset ⊂ dfFour.cols.toFinset ∧
    2 ≤ (["t1", "t2"] : List String).length ∧
    (["t1", "t2"] : List String).toFinset ⊂ dfFour.cols.toFinset ∧
    (∀ n ∈ ["t1", "t2"], (colVals dfFour n).toFinset = {0, 1}) ∧
    (checkFeature dfFour (.list ["a", "b"]) = .ok "onehot" ∧
     checkTarget dfFour (.list ["t1", "t2"]) = .ok "multi-class") :=
  ⟨by decide, by decide, by decide, by decide, by decide,
    C4_list_subset_amended dfFour ["a", "b"] ["t1", "t2"] (by decide) (by decide)
      (by decide) (by decide) (by decide)⟩

/-- C5 (confirmed): on every successful `target_plot` call, the bar data
and every produced target line carry exactly the same bin ids, listed in
strictly ascending order, and a bin id occurs only if at least one row
was assigned to it (zero-row bins appear in none of them). -/
theorem C5_bin_consistency (df : DataFrame) (feature target : ColSpec)
    (pr : Option (List Int)) (prep : DataFrame → GridOut) (res : TPResult)
    (h : target_plot df feature target pr prep = .ok res) :
    (∀ line ∈ res.targetLines, line.map Prod.fst = res.barData.map Prod.fst) ∧
    List.Sorted (· < ·) (res.barData.map Prod.fst) ∧
    (∀ b ∈ res.barData.map Prod.fst, 0 < res.xs.count b) := by
  obtain ⟨tt, -, hbar, -, hlines⟩ := target_plot_ok_inv df feature target pr prep res h
  refine ⟨?_, ?_, ?_⟩
  · intro line hline
    obtain ⟨vals, rfl⟩ := hlines line hline
    rw [groupMean_fst, hbar, groupCount_fst]
  · rw [hbar, groupCount_fst]
    exact sortedBins_sorted_lt _
  · intro b hb
    rw [hbar, groupCount_fst] at hb
    exact List.count_pos_iff.mpr (mem_sortedBins.mp hb)

/-- C5 witness: the theorem applied to the concrete successful call on
`dfBin`. -/
theorem C5_bin_consistency_witness :
    target_plot dfBin (.str "f") (.str "y") none prepBin = .ok resBin ∧
    ((∀ line ∈ resBin.targetLines, line.map Prod.fst = resBin.barData.map Prod.fst) ∧
     List.Sorted (· < ·) (resBin.barData.map Prod.fst) ∧
     (∀ b ∈ resBin.barData.map Prod.fst, 0 < resBin.xs.count b)) :=
  ⟨by decide, C5_bin_consistency dfBin (.str "f") (.str "y") none prepBin resBin (by decide)⟩

/-- C6 (confirmed): on every successful `target_plot` call, the per-bin
bar counts sum to exactly the number of rows that received a bin
assignment (the rows of the binned frame `data_x`). -/
theorem C6_bar_count_sum (df : DataFrame) (feature target : ColSpec)
    (pr : Option (List Int)) (prep : DataFrame → GridOut) (res : TPResult)
    (h : target_plot df feature target pr prep = .ok res) :
    (res.barData.map Prod.snd).sum = res.xs.length := by
  obtain ⟨-, -, hbar, -, -⟩ := target_plot_ok_inv df feature target pr prep res h
  rw [hbar]
  exact sum_groupCount _

/-- C6 witness: the theorem applied to the concrete successful call on
`dfBin` (counts 2 + 1 over three binned rows). -/
theorem C6_bar_count_sum_witness :
    target_plot dfBin (.str "f") (.str "y") none prepBin = .ok resBin ∧
    (resBin.barData.map Prod.snd).sum = resBin.xs.length :=
  ⟨by decide, C6_bar_count_sum dfBin (.str "f") (.str "y") none prepBin resBin (by decide)⟩

/-- C7 (amended): for a list target of length ≥ 2 whose name set is a
*strict* subset of the dataset's columns (and with the earlier feature and
percentile-range checks passing), `target_plot` fails with `InvalidTarget`
iff at least one listed column's distinct value set differs from `{0, 1}`.
When the name set equals the full column set, `InvalidTarget` is raised
even if every listed column is one-hot. -/
theorem C7_list_target_iff_amended (df : DataFrame) (feature : ColSpec)
    (pr : Option (List Int)) (prep : DataFrame → GridOut)
    (tnames : List String) (ft : String)
    (hf : checkFeature df feature = .ok ft)
    (hr : checkPercentileRange pr = .ok ())
    (h2 : 2 ≤ tnames.length)
    (hsub : tnames.toFinset ⊂ df.cols.toFinset) :
    (target_plot df feature (.list tnames) pr prep = .error .invalidTarget ↔
      ∃ n ∈ tnames, (colVals df n).toFinset ≠ {0, 1}) := by
  unfold target_plot target_plotRun
  rw [hf, hr, checkTarget_list_eval df tnames h2 hsub]
  by_cases hall : ∀ n ∈ tnames, (colVals df n).toFinset = {0, 1}
  · rw [if_pos hall]
    simp only [reduceCtorEq, false_iff]
    push_neg
    exact hall
  · rw [if_neg hall]
    simp only [true_iff]
    push_neg at hall
    exact hall

/-- C7 counterexample: the list target `["t1", "t2"]` over `dfPair` has
every listed column one-hot (distinct values `{0, 1}`), yet the call
fails with `InvalidTarget` — because the list equals the full column set
and the code's strict-subset test rejects it — refuting the claimed
"iff". -/
theorem C7_list_target_iff_cex :
    target_plot dfPair (.str "t1") (.list ["t1", "t2"]) none prep0 =
      .error .invalidTarget ∧
    (∀ n ∈ ["t1", "t2"], (colVals dfPair n).toFinset = {0, 1}) := by decide

/-- C7 witness: the amended equivalence applied to `dfFour`, where the
target pair is a strict subset of the columns. -/
theorem C7_list_target_iff_witness :
    checkFeature dfFour (.str "a") = .ok "binary" ∧
    checkPercentileRange none = .ok () ∧
    2 ≤ (["t1", "t2"] : List String).length ∧
    (["t1", "t2"] : List String).toFinset ⊂ dfFour.cols.toFinset ∧
    (target_plot dfFour (.str "a") (.list ["t1", "t2"]) none prep0 =
        .error .invalidTarget ↔
      ∃ n ∈ ["t1", "t2"], (colVals dfFour n).toFinset ≠ {0, 1}) :=
  ⟨by decide, by decide, by decide, by decide,
    C7_list_target_iff_amended dfFour (.str "a") none prep0 ["t1", "t2"] "binary"
      (by decide) (by decide) (by decide) (by decide)⟩

/-- C8 (confirmed): an `actual_plot` call with `multi_flag` true and an
integer `which_class` at least the number of classes in the result
mapping fails with `InvalidClassSelector`, with an empty render log — no
rendering happens before the failure. -/
theorem C8_class_selector_bound (n : Nat) (wc : Int) (nc : Option Nat)
    (h : (n : Int) ≤ wc) :
    actual_plotRun (.dict n) true wc nc = (.error .invalidClassSelector, []) := by
  simp [actual_plotRun, h]

/-- C8 witness: `which_class = 5` over a 3-class result. -/
theorem C8_class_selector_bound_witness :
    ((3 : Nat) : Int) ≤ 5 ∧
    actual_plotRun (.dict 3) true 5 none = (.error .invalidClassSelector, []) :=
  ⟨by decide, C8_class_selector_bound 3 5 none (by decide)⟩

/-- C9 (confirmed): `target_plot` leaves the caller's frame unchanged on
every call, successful or failing: the working data is an explicit copy
(`df[useful_features].copy()`) and the count-marker column is written
only to that copy. -/
theorem C9_df_unchanged (df : DataFrame) (feature target : ColSpec)
    (pr : Option (List Int)) (prep : DataFrame → GridOut) :
    (target_plotRun df feature target pr prep).2 = df := by
  unfold target_plotRun
  (repeat' split) <;> rfl

/-- C10 (confirmed): with `multi_flag` true and a negative `which_class`,
the bound check `which_class >= len(keys)` does not fire, the title
figure is created, and the lookup of the key `class_{which_class}` then
fails with a `KeyError` — an error outside the specification's taxonomy. -/
theorem C10_negative_class (n : Nat) (wc : Int) (nc : Option Nat) (h : wc < 0) :
    actual_plotRun (.dict n) true wc nc = (.error .keyError, ["figure"]) ∧
      specTaxonomy .keyError = false := by
  refine ⟨?_, rfl⟩
  have h1 : ¬ ((n : Int) ≤ wc) := by omega
  have h2 : ¬ (0 ≤ wc ∧ wc < (n : Int)) := by omega
  simp [actual_plotRun, classLookup, h1, h2]

/-- C10 witness: `which_class = -1` over a 3-class result. -/
theorem C10_negative_class_witness :
    (-1 : Int) < 0 ∧
    (actual_plotRun (.dict 3) true (-1) none = (.error .keyError, ["figure"]) ∧
      specTaxonomy .keyError = false) :=
  ⟨by decide, C10_negative_class 3 (-1) none (by decide)⟩

end PDPbox
